import Mathlib

/-!
Verification of the Oriel Cornerstone 260 monochromator protocol client
(`monochromator.py`): a shallow embedding of its message framing, the
write/query/command exchange primitives and the high-level operations,
together with theorems settling the specified properties.

The serial transport is modelled as explicit state: the list of byte
messages handed to the serial port's write, and the queue of pending
inbound reads (one entry per `read_until` call: a line ending in the
terminator, or whatever partial data the timeout left, `""` when the
buffer is empty). Python exceptions are modelled with `Except`; the
state is threaded through even on the error path, so "no bytes were
written before the exception" is expressible.
-/

/-- The Python exception classes the client can raise, with their messages. -/
inductive PyError where
  | typeError (msg : String)
  | valueError (msg : String)
  | indexError (msg : String)
deriving DecidableEq

/-- The observable transport state of one device session: every byte message
given to the serial port, in order, and the queue of pending inbound reads. -/
structure MonoState where
  sent : List (List UInt8)
  inbox : List String
deriving DecidableEq

/-- The `Response` namedtuple: the echoed statement and the payload line of a
query, both right-stripped. -/
structure Response where
  statement : String
  response : String
deriving DecidableEq

/-- A grating descriptor, the dictionary `{number, lines, label}` the
`grating` property builds. -/
structure Grating where
  number : Int
  lines : Int
  label : String
deriving DecidableEq

/-- The ASCII whitespace characters Python's `str.rstrip` / `str.strip`
remove (space, tab, line feed, carriage return, vertical tab, form feed;
the non-ASCII Unicode spaces never occur in this protocol). -/
def pyIsSpace (c : Char) : Bool :=
  c == ' ' || c == '\t' || c == '\n' || c == '\r' ||
    c == Char.ofNat 11 || c == Char.ofNat 12

/-- Python `str.rstrip()`: drop trailing whitespace. -/
def pyRstrip (s : String) : String :=
  String.mk (s.data.reverse.dropWhile pyIsSpace).reverse

/-- Python `str.strip()`: drop leading and trailing whitespace. -/
def pyStrip (s : String) : String :=
  String.mk ((s.data.dropWhile pyIsSpace).reverse.dropWhile pyIsSpace).reverse

/-- Python `str.upper()`, character by character. On the ASCII data this
protocol carries it agrees with Python; the multi-character Unicode case
mappings (such as the sharp s) are not modelled. -/
def pyUpper (s : String) : String :=
  String.mk (s.data.map Char.toUpper)

/-- UTF-8 encoding of one character. -/
def utf8Char (c : Char) : List UInt8 :=
  let v := c.toNat
  if v < 0x80 then [UInt8.ofNat v]
  else if v < 0x800 then
    [UInt8.ofNat (0xC0 ||| (v >>> 6)), UInt8.ofNat (0x80 ||| (v &&& 0x3F))]
  else if v < 0x10000 then
    [UInt8.ofNat (0xE0 ||| (v >>> 12)), UInt8.ofNat (0x80 ||| ((v >>> 6) &&& 0x3F)),
      UInt8.ofNat (0x80 ||| (v &&& 0x3F))]
  else
    [UInt8.ofNat (0xF0 ||| (v >>> 18)), UInt8.ofNat (0x80 ||| ((v >>> 12) &&& 0x3F)),
      UInt8.ofNat (0x80 ||| ((v >>> 6) &&& 0x3F)), UInt8.ofNat (0x80 ||| (v &&& 0x3F))]

/-- Python `str.encode("utf-8")` as a byte list. -/
def encode (s : String) : List UInt8 :=
  s.data.flatMap utf8Char

/-- Python `s[-1]`: the last character, or IndexError on the empty string. -/
def pyLast (s : String) : Except PyError Char :=
  match s.data.getLast? with
  | some c => .ok c
  | none => .error (.indexError "string index out of range")

/-- Python `str.split(sep)` for a one-character separator, on the character
list: `"" ↦ [""]`, and every separator occurrence opens a new field. -/
def splitOnChar (c : Char) : List Char → List (List Char)
  | [] => [[]]
  | x :: xs =>
    match splitOnChar c xs with
    | [] => [[]]
    | y :: ys => if x = c then [] :: y :: ys else (x :: y) :: ys

/-- Python `str.split(sep)` for a one-character separator. -/
def pySplit (s : String) (c : Char) : List String :=
  (splitOnChar c s.data).map String.mk

/-- Python `sep.join(xs)`. -/
def pyJoin (sep : String) : List String → String
  | [] => ""
  | [x] => x
  | x :: xs => x ++ sep ++ pyJoin sep xs

/-- Python `xs[i]` on a list: the element, or IndexError. -/
def pyIndex (xs : List String) (i : Nat) : Except PyError String :=
  match xs.get? i with
  | some x => .ok x
  | none => .error (.indexError "list index out of range")

/-- The value of a nonempty all-decimal-digit character list, else `none`. -/
def decDigits (l : List Char) : Option Nat :=
  if l ≠ [] && l.all Char.isDigit then
    some (l.foldl (fun a c => a * 10 + (c.toNat - 48)) 0)
  else none

/-- Python `int(s)` for base 10: strip whitespace, an optional sign, then
decimal digits; anything else raises ValueError. (The underscore digit
grouping Python also accepts never occurs in device responses and is not
modelled.) -/
def pyInt (s : String) : Except PyError Int :=
  let bad : Except PyError Int :=
    .error (.valueError ("invalid literal for int() with base 10: " ++ s))
  match (pyStrip s).data with
  | '-' :: rest =>
    match decDigits rest with
    | some n => .ok (-(n : Int))
    | none => bad
  | '+' :: rest =>
    match decDigits rest with
    | some n => .ok (n : Int)
    | none => bad
  | l =>
    match decDigits l with
    | some n => .ok (n : Int)
    | none => bad

/-- The value of an unsigned decimal literal `digits[.digits]`, as an exact
rational, or `none` when malformed. -/
def decimalCore (l : List Char) : Option ℚ :=
  match splitOnChar '.' l with
  | [a] => (decDigits a).map (fun n => (n : ℚ))
  | [a, b] =>
    if a = [] && b = [] then none
    else
      match (if a = [] then some 0 else decDigits a),
          (if b = [] then some 0 else decDigits b) with
      | some i, some f => some (mkRat (i * 10 ^ b.length + f) (10 ^ b.length))
      | _, _ => none
  | _ => none

/-- Python `float(s)` restricted to plain finite decimal literals
`[sign] digits [. digits]` — the only shape this device ever reports. The
device values are modelled as exact rationals: the binary rounding of IEEE
doubles is out of scope, and none of the claims depends on it. Exponent,
infinity and NaN forms are not modelled. -/
def pyFloat (s : String) : Except PyError ℚ :=
  let bad : Except PyError ℚ :=
    .error (.valueError ("could not convert string to float: " ++ s))
  match (pyStrip s).data with
  | '-' :: rest =>
    match decimalCore rest with
    | some q => .ok (-q)
    | none => bad
  | '+' :: rest =>
    match decimalCore rest with
    | some q => .ok q
    | none => bad
  | l =>
    match decimalCore l with
    | some q => .ok q
    | none => bad

/-- Round a rational to the nearest integer, ties to even — the rounding
CPython's float formatting applies. -/
def roundHalfEven (q : ℚ) : Int :=
  let f : Int := ⌊q⌋
  if q - f < 1 / 2 then f
  else if q - f > 1 / 2 then f + 1
  else if f % 2 = 0 then f else f + 1

/-- The character of one decimal digit. -/
def decChar (d : Nat) : Char :=
  Char.ofNat (48 + d % 10)

/-- A natural number printed as exactly three decimal digits (its value
modulo 1000), as the fractional part of `%.3f` output. -/
def pad3 (m : Nat) : String :=
  String.mk [decChar (m / 100), decChar (m / 10), decChar m]

/-- Python `f"{w:.3f}"` on the exact rational model of the wavelength:
round to the nearest thousandth (ties to even) and print with exactly
three digits after the decimal point. (On an IEEE double the rounding acts
on the nearest binary value; on the exact decimal inputs the claims use,
the output agrees. The `-0.000` Python prints for tiny negative values is
not modelled.) -/
def format3 (w : ℚ) : String :=
  let n : Int := roundHalfEven (w * 1000)
  let m : Nat := n.natAbs
  (if n < 0 then "-" else "") ++ toString (m / 1000) ++ "." ++ pad3 (m % 1000)

namespace Monochromator

/-- `self.term_chars`. -/
def term_chars : String := "\r\n"

/-- `write`: append the terminator, upper-case the whole message, encode it
UTF-8, hand the bytes to the serial port; the byte count the port reports
written is returned (pyserial reports the full length). -/
def write (st : MonoState) (msg : String) : Nat × MonoState :=
  let msg := msg ++ term_chars
  let msg := pyUpper msg
  let bytes := encode msg
  (bytes.length, { st with sent := st.sent ++ [bytes] })

/-- `read`: one `read_until` call — the next pending inbound entry, or `""`
when the buffer is empty at timeout. -/
def read (st : MonoState) : String × MonoState :=
  match st.inbox with
  | [] => ("", st)
  | l :: rest => (l, { st with inbox := rest })

/-- `command(cmd, *args)`: build `cmd + " " + " ".join(args)` (the arguments
already stringified), send it, read one line, return it right-stripped. -/
def command (st : MonoState) (cmd : String) (args : List String) : String × MonoState :=
  let msg := cmd ++ " " ++ pyJoin " " args
  let (_, st) := write st msg
  let (r, st) := read st
  (pyRstrip r, st)

/-- `query(msg)`: `msg[-1]` (IndexError on `""`), append `?` when the last
character is not already `?`, send, read the echoed statement then the
payload, right-strip both. -/
def query (st : MonoState) (msg : String) : Except PyError Response × MonoState :=
  match pyLast msg with
  | .error e => (.error e, st)
  | .ok c =>
    let msg := if c ≠ '?' then msg ++ "?" else msg
    let (_, st) := write st msg
    let (statement, st) := read st
    let (response, st) := read st
    (.ok { statement := pyRstrip statement, response := pyRstrip response }, st)

/-- Sequencing of exchanges: an exception propagates, threading the transport
state reached so far (a raised Python exception does not undo prior writes). -/
def bindE (x : Except PyError α × MonoState)
    (f : α → MonoState → Except PyError β × MonoState) :
    Except PyError β × MonoState :=
  match x with
  | (.error e, st) => (.error e, st)
  | (.ok a, st) => f a st

/-- The `position` property: `query("wave")`, response parsed as float. -/
def position (st : MonoState) : Except PyError ℚ × MonoState :=
  bindE (query st "wave") fun r st => (pyFloat r.response, st)

/-- `abort()`: `command("abort")` with no arguments. -/
def abort (st : MonoState) : MonoState :=
  (command st "abort" []).2

/-- `goto(wavelength)`: format the wavelength with `f"{wavelength:.3f}"`,
issue `command("gowave", w)`, then return the re-queried `position`. -/
def goto (st : MonoState) (wavelength : ℚ) : Except PyError ℚ × MonoState :=
  let w := format3 wavelength
  let (_, st) := command st "gowave" [w]
  position st

/-- The dictionary literal of the `grating` property: split the response
on `,`, parse field 0 and field 1 as ints, take field 2 as the label — in
the evaluation order of the source, so a malformed response raises at the
first field that fails. -/
def grating_parse (r : Response) (st : MonoState) : Except PyError Grating × MonoState :=
  let fields := pySplit r.response ','
  bindE (pyIndex fields 0, st) fun f0 st =>
    bindE (pyInt f0, st) fun number st =>
      bindE (pyIndex fields 1, st) fun f1 st =>
        bindE (pyInt f1, st) fun lines st =>
          bindE (pyIndex fields 2, st) fun label st =>
            (.ok { number := number, lines := lines, label := label }, st)

/-- The `grating` property: `query("grat")`, then the dictionary parse. -/
def grating (st : MonoState) : Except PyError Grating × MonoState :=
  bindE (query st "grat") grating_parse

/-- The `filter` property: `query("filter")`, response parsed as int. -/
def filter (st : MonoState) : Except PyError Int × MonoState :=
  bindE (query st "filter") fun r st => (pyInt r.response, st)

/-- `_validate_filter(pos)`: ValueError outside `[1, 6]`, else `True`. -/
def _validate_filter (pos : Int) : Except PyError Bool :=
  if pos < 1 ∨ pos > 6 then
    .error (.valueError "Invalid filter value. Must be between 1 and 6.")
  else .ok true

/-- `set_filter(pos)`: validate, then `command("filter", pos)`. -/
def set_filter (st : MonoState) (pos : Int) : Except PyError Unit × MonoState :=
  bindE (_validate_filter pos, st) fun _ st =>
    (.ok (), (command st "filter" [toString pos]).2)

/-- `filter_label(filter, label=None)`. The source's first statement (line
228) is `self._validate_filter()` — the required positional argument `pos`
is missing, so in Python every call raises TypeError right there, before
the label length check, before any write, and before the re-query. The
translation is therefore this immediate error; the command-building, length
check, set and re-query of lines 229–238 are unreachable. -/
def filter_label (st : MonoState) (filter : Int) (label : Option String) :
    Except PyError String × MonoState :=
  (.error (.typeError
    "_validate_filter() missing 1 required positional argument: pos"), st)

/-- The `shuttered` property: `query("shutter")`, `True` exactly when the
response equals `"C"`. -/
def shuttered (st : MonoState) : Except PyError Bool × MonoState :=
  bindE (query st "shutter") fun r st => (.ok (r.response == "C"), st)

end Monochromator

/-- The number of trailing `?` characters of a character list. -/
def trailingQsL (l : List Char) : Nat :=
  (l.reverse.takeWhile (fun c => c == '?')).length

/-- The number of trailing `?` characters of a string. -/
def trailingQs (s : String) : Nat :=
  trailingQsL s.data

/-- What one `command` call leaves on the wire: exactly one more message,
the command name, one space, the space-joined arguments and the
terminator, upper-cased and UTF-8 encoded. -/
theorem command_sent (st : MonoState) (cmd : String) (args : List String) :
    (Monochromator.command st cmd args).2.sent =
      st.sent ++ [encode (pyUpper (cmd ++ " " ++ pyJoin " " args ++ Monochromator.term_chars))] := by
  obtain ⟨sent, inbox⟩ := st
  unfold Monochromator.command Monochromator.write Monochromator.read
  cases inbox <;> rfl

/-- Full evaluation of `query` on a message with a last character: one
message sent (`?`-suffixed unless already so), the next two inbound lines
consumed, both returned right-stripped. -/
theorem query_eval (sent : List (List UInt8)) (inbox : List String) (msg : String) (c : Char)
    (h : msg.data.getLast? = some c) :
    Monochromator.query ⟨sent, inbox⟩ msg =
      (.ok { statement := pyRstrip (inbox.getD 0 ""), response := pyRstrip (inbox.getD 1 "") },
        ⟨sent ++ [encode (pyUpper ((if c ≠ '?' then msg ++ "?" else msg) ++
            Monochromator.term_chars))],
          inbox.drop 2⟩) := by
  unfold Monochromator.query pyLast
  rw [h]
  cases inbox with
  | nil => rfl
  | cons a t => cases t <;> rfl

/-- A nonempty string has a last character. -/
theorem exists_getLast_of_ne_empty (msg : String) (h : msg ≠ "") :
    ∃ c, msg.data.getLast? = some c := by
  rcases hq : msg.data.getLast? with _ | c
  · exact absurd (by obtain ⟨l⟩ := msg; cases List.getLast?_eq_none_iff.mp hq; rfl) h
  · exact ⟨c, rfl⟩

/-- C1: the claim fails on the code. The first statement of `filter_label`
(source line 228) calls `_validate_filter()` without its required `pos`
argument, so every call — any filter number, any label, the claimed
`len(L) ≤ 8` case included — raises TypeError at once: the set command is
never issued, the label is never re-queried, and nothing is written to the
transport (the state is returned unchanged). -/
theorem C1_filter_label_always_raises (st : MonoState) (n : Int) (label : Option String) :
    Monochromator.filter_label st n label =
      (.error (.typeError
        "_validate_filter() missing 1 required positional argument: pos"), st) := rfl

/-- C2: at a 9-character label the code does fail before any transport
write (the state, its `sent` list included, is untouched), but the error
is the TypeError of the argument-less `_validate_filter()` call on line
228, not the ValidationError (ValueError) of the length check, which is
unreachable. -/
theorem C2_long_label_raises_before_write :
    Monochromator.filter_label ⟨[], []⟩ 1 (some "ABCDEFGHI") =
      (.error (.typeError
        "_validate_filter() missing 1 required positional argument: pos"), ⟨[], []⟩) ∧
    ("ABCDEFGHI" : String).length = 9 := ⟨rfl, rfl⟩

/-- C3: for `1 ≤ p ≤ 6`, `set_filter(p)` raises nothing and sends the
filter command — exactly one message, `filter <p>` plus terminator,
upper-cased and UTF-8 encoded; for `p` outside `[1, 6]` it raises
ValueError and performs no transport write. -/
theorem C3_set_filter (p : Int) (st : MonoState) :
    (1 ≤ p ∧ p ≤ 6 →
      (Monochromator.set_filter st p).1 = .ok () ∧
      (Monochromator.set_filter st p).2.sent =
        st.sent ++ [encode (pyUpper ("filter " ++ toString p ++ Monochromator.term_chars))]) ∧
    (p < 1 ∨ 6 < p →
      (Monochromator.set_filter st p).1 =
        .error (.valueError "Invalid filter value. Must be between 1 and 6.") ∧
      (Monochromator.set_filter st p).2.sent = st.sent) := by
  constructor
  · rintro ⟨h1, h2⟩
    have hv : Monochromator._validate_filter p = .ok true := by
      unfold Monochromator._validate_filter
      rw [if_neg (by omega)]
    unfold Monochromator.set_filter
    rw [hv]
    refine ⟨rfl, ?_⟩
    rw [show (Monochromator.bindE (Except.ok true, st) fun _ st =>
        ((Except.ok ()), (Monochromator.command st "filter" [toString p]).2)).2
        = (Monochromator.command st "filter" [toString p]).2 from rfl]
    rw [command_sent]
    rw [show ("filter" ++ " " ++ pyJoin " " [toString p] : String) = "filter " ++ toString p from rfl]
  · intro h
    have hv : Monochromator._validate_filter p =
        .error (.valueError "Invalid filter value. Must be between 1 and 6.") := by
      unfold Monochromator._validate_filter
      rw [if_pos (by omega)]
    unfold Monochromator.set_filter
    rw [hv]
    exact ⟨rfl, rfl⟩

/-- C3 witness: both branches at concrete inputs — `set_filter(3)` sends
`FILTER 3` and returns cleanly, `set_filter(7)` raises ValueError with
nothing sent. -/
theorem C3_set_filter_witness :
    ((Monochromator.set_filter ⟨[], ["FILTER 3\r\n"]⟩ 3).1 = .ok () ∧
      (Monochromator.set_filter ⟨[], ["FILTER 3\r\n"]⟩ 3).2.sent =
        [] ++ [encode (pyUpper ("filter " ++ toString (3 : Int) ++ Monochromator.term_chars))]) ∧
    ((Monochromator.set_filter ⟨[], []⟩ 7).1 =
        .error (.valueError "Invalid filter value. Must be between 1 and 6.") ∧
      (Monochromator.set_filter ⟨[], []⟩ 7).2.sent = []) :=
  ⟨(C3_set_filter 3 ⟨[], ["FILTER 3\r\n"]⟩).1 ⟨by decide, by decide⟩,
    (C3_set_filter 7 ⟨[], []⟩).2 (Or.inr (by decide))⟩

/-- C8: `write(m)` hands the transport exactly the UTF-8 bytes of
`(m + "\r\n").upper()` — terminator appended, whole message case-folded to
upper case — as one message, and returns the byte count the transport
reports written. -/
theorem C8_write_frames (m : String) (st : MonoState) :
    Monochromator.write st m =
      ((encode (pyUpper (m ++ Monochromator.term_chars))).length,
        { st with sent := st.sent ++ [encode (pyUpper (m ++ Monochromator.term_chars))] }) := rfl

/-- C10: a command invoked with zero arguments, such as `abort`, goes on
the wire with a trailing single space before the terminator — the name and
the empty joined argument string are concatenated with one space — and
that is a different byte message from the bare name. -/
theorem C10_zero_arg_trailing_space (st : MonoState) (cmd : String) :
    (Monochromator.command st cmd []).2.sent =
      st.sent ++ [encode (pyUpper (cmd ++ " " ++ Monochromator.term_chars))] ∧
    (Monochromator.abort st).sent =
      st.sent ++ [encode (pyUpper ("abort" ++ " " ++ Monochromator.term_chars))] ∧
    encode (pyUpper ("abort" ++ " " ++ Monochromator.term_chars)) ≠
      encode (pyUpper ("abort" ++ Monochromator.term_chars)) := by
  have h : ∀ st : MonoState, (Monochromator.command st cmd []).2.sent =
      st.sent ++ [encode (pyUpper (cmd ++ " " ++ Monochromator.term_chars))] := by
    intro st
    rw [command_sent]
    rw [show pyJoin " " ([] : List String) = "" from rfl, String.append_empty]
  refine ⟨h st, ?_, by decide⟩
  show (Monochromator.command st "abort" []).2.sent = _
  rw [command_sent]
  rfl

/-- C6 counterexample: on the empty query message `msg[-1]` raises
IndexError before anything is sent — zero outbound messages, not one, and
no inbound line is consumed (the state is unchanged). -/
theorem C6_empty_message_counterexample :
    Monochromator.query ⟨[], ["A\r\n", "B\r\n"]⟩ "" =
      (.error (.indexError "string index out of range"), ⟨[], ["A\r\n", "B\r\n"]⟩) := rfl

/-- C6 (amended to nonempty query messages, the only ones the client ever
forms): `query` sends exactly one outbound message, then consumes exactly
the next two inbound lines — the first becomes the Exchange's statement,
the second its response — and both are right-trimmed of trailing
terminator whitespace before being returned. On the empty message the code
instead raises IndexError before any write (see the counterexample). -/
theorem C6_query_shape (msg : String) (st : MonoState) (h : msg ≠ "") :
    (∃ w, (Monochromator.query st msg).2.sent = st.sent ++ [w]) ∧
    (Monochromator.query st msg).2.inbox = st.inbox.drop 2 ∧
    (Monochromator.query st msg).1 =
      .ok { statement := pyRstrip (st.inbox.getD 0 ""),
            response := pyRstrip (st.inbox.getD 1 "") } := by
  obtain ⟨c, hc⟩ := exists_getLast_of_ne_empty msg h
  obtain ⟨sent, inbox⟩ := st
  rw [query_eval sent inbox msg c hc]
  exact ⟨⟨_, rfl⟩, rfl, rfl⟩

/-- C6 witness: the query `wave` against a device echoing `WAVE?` and
answering `512.5`. -/
theorem C6_query_shape_witness :
    (∃ w, (Monochromator.query ⟨[], ["WAVE?\r\n", "512.5\r\n"]⟩ "wave").2.sent = [] ++ [w]) ∧
    (Monochromator.query ⟨[], ["WAVE?\r\n", "512.5\r\n"]⟩ "wave").2.inbox =
      (["WAVE?\r\n", "512.5\r\n"] : List String).drop 2 ∧
    (Monochromator.query ⟨[], ["WAVE?\r\n", "512.5\r\n"]⟩ "wave").1 =
      .ok { statement := pyRstrip ((["WAVE?\r\n", "512.5\r\n"] : List String).getD 0 ""),
            response := pyRstrip ((["WAVE?\r\n", "512.5\r\n"] : List String).getD 1 "") } :=
  C6_query_shape "wave" ⟨[], ["WAVE?\r\n", "512.5\r\n"]⟩ (by decide)

/-- C9: `shuttered` is `True` exactly when the terminator-stripped response
to the shutter query equals the single character `C`, `False` for every
other response — the empty string included (last conjunct: an empty payload
line yields `False`). -/
theorem C9_shuttered (st : MonoState) :
    ((Monochromator.shuttered st).1 = .ok true ↔ pyRstrip (st.inbox.getD 1 "") = "C") ∧
    ((Monochromator.shuttered st).1 = .ok false ↔ pyRstrip (st.inbox.getD 1 "") ≠ "C") ∧
    (Monochromator.shuttered ⟨[], ["SHUTTER?\r\n", "\r\n"]⟩).1 = .ok false := by
  obtain ⟨sent, inbox⟩ := st
  have h : (Monochromator.shuttered ⟨sent, inbox⟩).1 =
      .ok (pyRstrip (inbox.getD 1 "") == "C") := by
    unfold Monochromator.shuttered
    rw [query_eval sent inbox "shutter" 'r' rfl]
    rfl
  rw [h]
  refine ⟨?_, ?_, rfl⟩
  · simp
  · simp

/-- A two-field response makes the grating dictionary literal raise:
whichever of the two fields first fails `int()` raises ValueError there,
and when both parse the `resp[2]` subscript raises IndexError. -/
theorem grating_parse_two_fields (r : Response) (st : MonoState) (f0 f1 : String)
    (h : pySplit r.response ',' = [f0, f1]) :
    ∃ e, (Monochromator.grating_parse r st).1 = .error e := by
  unfold Monochromator.grating_parse
  rw [h]
  rcases hp0 : pyInt f0 with e | n
  · exact ⟨e, by simp [Monochromator.bindE, pyIndex, hp0]⟩
  · rcases hp1 : pyInt f1 with e | m
    · exact ⟨e, by simp [Monochromator.bindE, pyIndex, hp0, hp1]⟩
    · exact ⟨.indexError "list index out of range",
        by simp [Monochromator.bindE, pyIndex, hp0, hp1]⟩

/-- C4: on device response `1,1200,VIS` the grating getter returns
number 1, line density 1200, label `VIS`; on a 2-field response it raises —
for `1,1200` the IndexError of the out-of-range `resp[2]` subscript, a
class distinct from the ValueError of argument validation (the
ProtocolError role of the spec's taxonomy), and in general any 2-field
response raises rather than being silently coerced into a result. -/
theorem C4_grating_response :
    (Monochromator.grating ⟨[], ["GRAT\r\n", "1,1200,VIS\r\n"]⟩).1 = .ok ⟨1, 1200, "VIS"⟩ ∧
    (Monochromator.grating ⟨[], ["GRAT\r\n", "1,1200\r\n"]⟩).1 =
      .error (.indexError "list index out of range") ∧
    (∀ m : String, PyError.indexError "list index out of range" ≠ PyError.valueError m) ∧
    (∀ echo payload f0 f1 : String, pySplit (pyRstrip payload) ',' = [f0, f1] →
      ∃ e, (Monochromator.grating ⟨[], [echo, payload]⟩).1 = .error e) := by
  refine ⟨rfl, rfl, fun m h => PyError.noConfusion h, ?_⟩
  intro echo payload f0 f1 h
  unfold Monochromator.grating
  rw [query_eval [] [echo, payload] "grat" 't' rfl]
  exact grating_parse_two_fields _ _ f0 f1 h

/-- C4 witness: the general 2-field conjunct discharged at the concrete
response `9,600`. -/
theorem C4_grating_response_witness :
    ∃ e, (Monochromator.grating ⟨[], ["GRAT\r\n", "9,600\r\n"]⟩).1 = .error e :=
  C4_grating_response.2.2.2 "GRAT\r\n" "9,600\r\n" "9" "600" (by decide)

/-- Every digit character `decChar` produces satisfies `isDigit`. -/
theorem decChar_isDigit (d : Nat) : (decChar d).isDigit = true := by
  unfold decChar
  have h : d % 10 < 10 := Nat.mod_lt _ (by norm_num)
  set r := d % 10 with hr
  interval_cases r <;> decide

/-- `format3` always renders with a decimal point followed by exactly
three digit characters. -/
theorem format3_shape (w : ℚ) :
    ∃ p m, format3 w = p ++ "." ++ pad3 m ∧ (pad3 m).length = 3 ∧
      ∀ c ∈ (pad3 m).data, c.isDigit = true := by
  refine ⟨(if roundHalfEven (w * 1000) < 0 then "-" else "") ++
      toString ((roundHalfEven (w * 1000)).natAbs / 1000),
    (roundHalfEven (w * 1000)).natAbs % 1000, rfl, rfl, ?_⟩
  intro c hc
  simp only [pad3, List.mem_cons, List.mem_singleton, List.not_mem_nil, or_false] at hc
  rcases hc with rfl | rfl | rfl <;> exact decChar_isDigit _

/-- `f"{500.0:.3f}"` is `500.000`. -/
theorem format3_500 : format3 500 = "500.000" := by
  unfold format3 roundHalfEven
  norm_num
  rfl

/-- The exact rational the device report `499.998` parses to. -/
theorem mkRat_499998 : (mkRat 499998 1000 : ℚ) = 499.998 := by
  norm_num [mkRat, Rat.normalize]

/-- C5: `goto(w)` puts exactly two messages on the wire — `gowave` with the
wavelength formatted to exactly three decimal places (the fractional part
is three digit characters), then the `wave?` re-query — and returns the
parse of the re-query's payload, whatever the device reports, not the
requested value; concretely, `goto(500.0)` sends `gowave 500.000` and a
device report of `499.998` is returned as exactly `499.998`. -/
theorem C5_goto_requery (w : ℚ) (st : MonoState) :
    (Monochromator.goto st w).2.sent =
      (st.sent ++ [encode (pyUpper ("gowave " ++ format3 w ++ Monochromator.term_chars))]) ++
        [encode (pyUpper ("wave?" ++ Monochromator.term_chars))] ∧
    (Monochromator.goto st w).1 = pyFloat (pyRstrip (st.inbox.getD 2 "")) ∧
    (∃ p m, format3 w = p ++ "." ++ pad3 m ∧ (pad3 m).length = 3 ∧
      ∀ c ∈ (pad3 m).data, c.isDigit = true) ∧
    format3 500 = "500.000" ∧
    (Monochromator.goto ⟨[], ["GOWAVE 500.000\r\n", "WAVE?\r\n", "499.998\r\n"]⟩ 500).1 =
      .ok (mkRat 499998 1000) ∧
    (mkRat 499998 1000 : ℚ) = 499.998 := by
  obtain ⟨sent, inbox⟩ := st
  refine ⟨?_, ?_, format3_shape w, format3_500, ?_, mkRat_499998⟩
  · rcases inbox with _ | ⟨a, _ | ⟨b, _ | ⟨c, t⟩⟩⟩ <;> rfl
  · rcases inbox with _ | ⟨a, _ | ⟨b, _ | ⟨c, t⟩⟩⟩ <;> rfl
  · show (Monochromator.position _).1 = _
    rfl

/-- A character list whose last element is not `?` gains exactly one
trailing `?` when one is appended. -/
theorem trailingQsL_append_one (l : List Char) (c : Char) (hl : l.getLast? = some c)
    (hc : c ≠ '?') : trailingQsL (l ++ ['?']) = 1 := by
  unfold trailingQsL
  rw [List.reverse_append]
  rcases hr : l.reverse with _ | ⟨d, t⟩
  · simp [hr]
  · have hd : d = c := by
      have h2 := List.head?_reverse l
      rw [hr, hl] at h2
      exact Option.some.inj h2
    subst hd
    simp [hr, List.takeWhile_cons, beq_eq_false_iff_ne.mpr hc]

/-- A character list ending in `?` has at least one trailing `?`. -/
theorem trailingQsL_pos (l : List Char) (hl : l.getLast? = some '?') :
    1 ≤ trailingQsL l := by
  unfold trailingQsL
  rcases hr : l.reverse with _ | ⟨d, t⟩
  · rw [List.reverse_eq_nil_iff] at hr
    rw [hr] at hl
    cases hl
  · have hd : d = '?' := by
      have h2 := List.head?_reverse l
      rw [hr, hl] at h2
      exact Option.some.inj h2
    subst hd
    simp [hr, List.takeWhile_cons]

/-- C7 counterexample: the suffix check inspects only the last character,
so a caller message already ending in `??` is sent unchanged — the message
put on the wire (upper-cased, before the terminator) ends in `??`, with
two trailing question marks, not exactly one. -/
theorem C7_double_suffix_counterexample :
    (Monochromator.query ⟨[], ["WAVE??\r\n", "500.000\r\n"]⟩ "wave??").2.sent =
      [encode (pyUpper ("wave??" ++ Monochromator.term_chars))] ∧
    trailingQs "wave??" = 2 ∧ trailingQs (pyUpper "wave??") = 2 :=
  ⟨rfl, rfl, rfl⟩

/-- C7 (amended to messages with at most one trailing `?`, which covers
every message the client itself forms): `query` sends `m` with exactly one
trailing `?` — appended when absent, left alone when `m` already ends in
one — so the wire message never ends in `??`. A message the caller already
terminated with `??` is the one exception: it is sent unchanged (see the
counterexample). -/
theorem C7_suffixing (m : String) (st : MonoState) (h : m ≠ "") (h1 : trailingQs m ≤ 1) :
    ∃ w, (Monochromator.query st m).2.sent =
        st.sent ++ [encode (pyUpper (w ++ Monochromator.term_chars))] ∧
      trailingQs w = 1 ∧ (w = m ∨ w = m ++ "?") := by
  obtain ⟨c, hc⟩ := exists_getLast_of_ne_empty m h
  obtain ⟨sent, inbox⟩ := st
  by_cases hq : c = '?'
  · refine ⟨m, ?_, ?_, Or.inl rfl⟩
    · rw [query_eval sent inbox m c hc, if_neg (by simp [hq])]
    · have h2 := trailingQsL_pos m.data (hq ▸ hc)
      unfold trailingQs at h1 ⊢
      omega
  · refine ⟨m ++ "?", ?_, ?_, Or.inr rfl⟩
    · rw [query_eval sent inbox m c hc, if_pos hq]
    · show trailingQs (m ++ "?") = 1
      unfold trailingQs
      rw [String.data_append]
      exact trailingQsL_append_one m.data c hc hq

/-- C7 witness: the bare message `wave` — one `?` is appended and the wire
message carries exactly one trailing `?`. -/
theorem C7_suffixing_witness :
    ∃ w, (Monochromator.query ⟨[], ["WAVE?\r\n", "512.5\r\n"]⟩ "wave").2.sent =
        ([] : List (List UInt8)) ++ [encode (pyUpper (w ++ Monochromator.term_chars))] ∧
      trailingQs w = 1 ∧ (w = "wave" ∨ w = "wave" ++ "?") :=
  C7_suffixing "wave" ⟨[], ["WAVE?\r\n", "512.5\r\n"]⟩ (by decide) (by decide)
